import Mathlib

/-!
Verification of the METAR-RasPi decoder (mlogic.py, common.py, mscreen.py).

The decoder is embedded shallowly: each Python function becomes a Lean
definition over `String` and `List String`; Python exceptions are modelled
by the `Except PyErr` monad; Python float arithmetic in the flight-rules
classifier is modelled by exact rationals (the only float constant,
0.000621371, is taken as the rational 621371/10^9; the thresholds 1, 3 and
5 are never within a rounding error of a reachable product, so the model
agrees with IEEE evaluation on every comparison made by the code).
-/

namespace Metar

/-- Python exception kinds raised by the decoder. -/
inductive PyErr where
  | indexError
  | valueError
  | zeroDivisionError
deriving Repr, DecidableEq

/-- Computation that may raise a Python exception. -/
abbrev PyM (α : Type) : Type := Except PyErr α

instance {α : Type} [DecidableEq α] : DecidableEq (PyM α) := fun a b =>
  match a, b with
  | .ok x, .ok y =>
      if h : x = y then .isTrue (by rw [h]) else .isFalse (by simp [h])
  | .error e, .error f =>
      if h : e = f then .isTrue (by rw [h]) else .isFalse (by simp [h])
  | .ok _, .error _ => .isFalse (by simp)
  | .error _, .ok _ => .isFalse (by simp)

/-! ### Python string and list primitives -/

/-- Python `s.isdigit()`: nonempty and all characters are digits. -/
def pyIsdigit (s : String) : Bool := !s.data.isEmpty && s.data.all Char.isDigit

/-- Character of `s` at index `i`; total helper used only where the source
guards the access (default is a blank). -/
def charAt (s : String) (i : Nat) : Char := s.data.getD i ' '

/-- Python `s[i]` for `i ≥ 0`: raises IndexError when out of range. -/
def pyCharAt (s : String) (i : Nat) : PyM Char :=
  match s.data.get? i with
  | some c => .ok c
  | none => .error .indexError

/-- Clamp a Python slice endpoint to an index of a string of length `n`
(negative endpoints count from the end). -/
def sliceIdx (n : Nat) (i : Int) : Nat :=
  if i < 0 then ((n : Int) + i).toNat else min i.toNat n

/-- Python `s[a:b]` with full negative-index semantics. -/
def pySlice (s : String) (a b : Int) : String :=
  ⟨(s.data.take (sliceIdx s.data.length b)).drop (sliceIdx s.data.length a)⟩

/-- Python `s[a:]`. -/
def pySliceFrom (s : String) (a : Int) : String := pySlice s a s.data.length

/-- Python `s[:b]`. -/
def pyTake (s : String) (b : Int) : String := pySlice s 0 b

/-- Index of the first occurrence of `pat` in a character list. -/
def findSubAux (pat : List Char) : List Char → Option Nat
  | [] => if pat.isEmpty then some 0 else none
  | c :: rest =>
      if pat.isPrefixOf (c :: rest) then some 0
      else (findSubAux pat rest).map (· + 1)

/-- Python `s.find(pat)`, as an option instead of the -1 sentinel. -/
def pyFind (s pat : String) : Option Nat := findSubAux pat.data s.data

/-- Python `s.find(pat)` as the raw integer result (-1 when absent). -/
def pyFindI (s pat : String) : Int :=
  match pyFind s pat with
  | some k => (k : Int)
  | none => -1

/-- Python `pat in s` (substring containment). -/
def pyContains (s pat : String) : Bool := (pyFind s pat).isSome

/-- Numeric value of a digit string. -/
def digitsVal (l : List Char) : Nat := l.foldl (fun a c => a * 10 + (c.toNat - 48)) 0

/-- Python `int(s)`: optional sign followed by at least one digit. -/
def pyInt? (s : String) : Option Int :=
  match s.data with
  | [] => none
  | c :: rest =>
      if c = '-' then
        if !rest.isEmpty && rest.all Char.isDigit then some (-(digitsVal rest : Int)) else none
      else if c = '+' then
        if !rest.isEmpty && rest.all Char.isDigit then some (digitsVal rest : Int) else none
      else if (c :: rest).all Char.isDigit then some (digitsVal (c :: rest) : Int) else none

/-- Python `int(s)` raising ValueError on failure. -/
def pyIntE (s : String) : PyM Int :=
  match pyInt? s with
  | some n => .ok n
  | none => .error .valueError

/-- Python `l.pop(0)`: raises IndexError on an empty list. -/
def pyPop0 {α : Type} : List α → PyM (α × List α)
  | [] => .error .indexError
  | x :: r => .ok (x, r)

/-- Python `l[i]` on a list, raising IndexError when out of range. -/
def pyListGet {α : Type} (l : List α) (i : Nat) : PyM α :=
  match l.get? i with
  | some x => .ok x
  | none => .error .indexError

/-- Split a string on a separator character, keeping empty pieces
(Python `s.split(sep)` for a one-character separator). -/
def splitCharAux (sep : Char) : List Char → List Char → List String
  | [], cur => [⟨cur.reverse⟩]
  | c :: rest, cur =>
      if c = sep then ⟨cur.reverse⟩ :: splitCharAux sep rest []
      else splitCharAux sep rest (c :: cur)

/-- Python `s.split(sep)` for a one-character separator. -/
def pySplitChar (sep : Char) (s : String) : List String := splitCharAux sep s.data []

/-- Python `s.split(' ')`. -/
def pySplitSpace (s : String) : List String := pySplitChar ' ' s

/-- Python `s.strip()`. -/
def pyStrip (s : String) : String :=
  ⟨((s.data.dropWhile Char.isWhitespace).reverse.dropWhile Char.isWhitespace).reverse⟩

/-! ### mlogic.py : logic tables -/

/-- mlogic.py line 19: recognized cloud layer types. -/
def cloudList : List String := ["FEW", "SCT", "BKN", "OVC"]

/-- mlogic.py lines 21-26: weather code lookup table.  The Python source is a
dict literal that lists the key UP twice (first Unknown Precip, then
Unknown); dict construction keeps the last value, so the table carries a
single UP entry mapping to Unknown. -/
def wxReplacements : List (String × String) :=
  [("RA", "Rain"), ("TS", "Thunderstorm"), ("SH", "Showers"), ("DZ", "Drizzle"),
   ("VC", "Vicinity"), ("UP", "Unknown"),
   ("SN", "Snow"), ("FZ", "Freezing"), ("SG", "Snow Grains"), ("IC", "Ice Crystals"),
   ("PL", "Ice Pellets"), ("GR", "Hail"), ("GS", "Small Hail"),
   ("FG", "Fog"), ("BR", "Mist"), ("HZ", "Haze"), ("VA", "Volcanic Ash"),
   ("DU", "Wide Dust"), ("FU", "Smoke"), ("SA", "Sand"), ("SY", "Spray"),
   ("SQ", "Squall"), ("PO", "Dust Whirls"), ("DS", "Duststorm"), ("SS", "Sandstorm"),
   ("FC", "Funnel Cloud"), ("BL", "Blowing"), ("MI", "Shallow"), ("BC", "Patchy"),
   ("PR", "Partial")]

/-- mlogic.py line 29: single letters routed to the US pipeline. -/
def RegionsUsingUSParser : List Char := ['C', 'K', 'M', 'P', 'T']

/-- mlogic.py line 30: single letters routed to the International pipeline. -/
def RegionsUsingInternationalParser : List Char :=
  ['A', 'B', 'D', 'E', 'F', 'G', 'H', 'L', 'M', 'N', 'O', 'R', 'S', 'U', 'V', 'W', 'Y', 'Z']

/-- mlogic.py line 32: two-letter M stations routed to the US pipeline. -/
def MStationsUsingUSParser : List String :=
  ["MB", "MD", "MK", "MM", "MT", "MU", "MW", "MY"]

/-- mlogic.py line 33: two-letter M stations routed to the International pipeline. -/
def MStationsUsingInternationalParser : List String :=
  ["MG", "MH", "MN", "MP", "MR", "MS", "MZ"]

/-! ### mlogic.py : remarks splitter -/

/-- mlogic.py line 64: replace every question mark with a space. -/
def replaceQ (txt : String) : String :=
  ⟨txt.data.map (fun c => if c = '?' then ' ' else c)⟩

/-- mlogic.py lines 63-70 (getRemarks): split the raw report into body tokens
and remarks, checking the markers BECMG, TEMPO, TEMP, NOSIG, RMK in that
order; for RMK the remarks start 4 characters past the marker, otherwise at
the marker itself; the body is the text up to one character before the
marker, stripped and space-split. -/
def getRemarks (txt0 : String) : List String × String :=
  let txt := replaceQ txt0
  match pyFind txt "BECMG" with
  | some k => (pySplitSpace (pyStrip (pyTake txt ((k : Int) - 1))), pySliceFrom txt (k : Int))
  | none =>
    match pyFind txt "TEMPO" with
    | some k => (pySplitSpace (pyStrip (pyTake txt ((k : Int) - 1))), pySliceFrom txt (k : Int))
    | none =>
      match pyFind txt "TEMP" with
      | some k => (pySplitSpace (pyStrip (pyTake txt ((k : Int) - 1))), pySliceFrom txt (k : Int))
      | none =>
        match pyFind txt "NOSIG" with
        | some k => (pySplitSpace (pyStrip (pyTake txt ((k : Int) - 1))), pySliceFrom txt (k : Int))
        | none =>
          match pyFind txt "RMK" with
          | some k => (pySplitSpace (pyStrip (pyTake txt ((k : Int) - 1))), pySliceFrom txt ((k : Int) + 4))
          | none => (pySplitSpace (pyStrip txt), "")

/-! ### mlogic.py : token sanitizer -/

/-- mlogic.py line 90: one-off tokens dropped by the sanitizer. -/
def noiseTokens : List String :=
  ["AUTO", "COR", "NSC", "CLR", "SKC", "NCD", "$", "KT", "M"]

/-- Python `wxData[i-1]` inside the sanitize loop: for i = 0 this is the
negative index -1, i.e. the last element of the current list. -/
def prevTok (L : List String) (i : Nat) : String :=
  if i = 0 then L.getD (L.length - 1) "" else L.getD (i - 1) ""

/-- One iteration of the sanitize loop (mlogic.py lines 82-91) at index `i`
of the current list.  The merge branch pops index `i` first and then
appends the popped text to the element at Python index `i - 1` of the
shrunk list, exactly as the augmented assignment in the source does; that
element always exists when the branch fires, so the total update is
faithful. -/
def sanitizeIter (st : List String × String) (i : Nat) : List String × String :=
  let L := st.1
  let rv := st.2
  let t := L.getD i ""
  if t.length > 4 ∧ charAt t 0 = 'R' ∧ (charAt t 3 = '/' ∨ charAt t 4 = '/') ∧
      pyIsdigit (pySlice t 1 3) then
    (L.eraseIdx i, t)
  else if (t.length = 4 ∨ t.length = 6) ∧ pyTake t 2 = "RE" then
    (L.eraseIdx i, rv)
  else if (i ≠ 0 ∧ t = "SM" ∧ pyIsdigit (L.getD (i - 1) "")) ∨
      (t = "KT" ∧ pyIsdigit (pyTake (prevTok L i) 5)) ∨
      (pyIsdigit t ∧ prevTok L i ∈ cloudList) then
    let L1 := L.eraseIdx i
    let j := if i = 0 then L1.length - 1 else i - 1
    (L1.set j (L1.getD j "" ++ t), rv)
  else if t ∈ noiseTokens then
    (L.eraseIdx i, rv)
  else
    (L, rv)

/-- The sanitize loop, iterating indices from `fuel - 1` down to 0 (Python
`for i in reversed(range(len(wxData)))`, where the range is fixed at entry). -/
def sanitizeLoop : Nat → List String × String → List String × String
  | 0, st => st
  | i + 1, st => sanitizeLoop i (sanitizeIter st i)

/-- mlogic.py lines 80-92 (sanitize): drop noise tokens, re-merge split
tokens, and extract the runway visibility. -/
def sanitize (wxData : List String) : List String × String :=
  sanitizeLoop wxData.length (wxData, "")

/-! ### mlogic.py : field extractors -/

/-- mlogic.py lines 95-99 (getAltimeterUS): an A-prefixed tail token, or a
bare 4-digit tail token.  Indexing the first character of the tail token
raises IndexError when that token is empty. -/
def getAltimeterUS (L : List String) : PyM (List String × String) :=
  match L.getLast? with
  | none => .ok (L, "")
  | some t =>
      (pyCharAt t 0).bind fun c =>
        if c = 'A' then .ok (L.dropLast, pySliceFrom t 1)
        else if t.length = 4 ∧ pyIsdigit t then .ok (L.dropLast, t)
        else .ok (L, "")

/-- mlogic.py lines 101-104 (getAltimeterInternational): a Q-prefixed tail
token. -/
def getAltimeterInternational (L : List String) : PyM (List String × String) :=
  match L.getLast? with
  | none => .ok (L, "")
  | some t =>
      (pyCharAt t 0).bind fun c =>
        if c = 'Q' then .ok (L.dropLast, pySliceFrom t 1)
        else .ok (L, "")

/-- mlogic.py lines 107-111 (getTempAndDewpoint): a tail token containing a
slash splits into temperature and dewpoint. -/
def getTempAndDewpoint (L : List String) : List String × String × String :=
  match L.getLast? with
  | none => (L, "", "")
  | some t =>
      if pyContains t "/" then
        let TD := pySplitChar '/' t
        (L.dropLast, TD.getD 0 "", TD.getD 1 "")
      else (L, "", "")

/-- mlogic.py lines 114-118 (getStationAndTime): pops the station from the
head (IndexError when no tokens remain) and keeps the next token as the
time only if it is 7 characters ending in Z with 6 leading digits. -/
def getStationAndTime (L : List String) : PyM (List String × String × String) :=
  (pyPop0 L).bind fun p =>
    let station := p.1
    let L := p.2
    match L with
    | t :: rest =>
        if t.length = 7 ∧ charAt t 6 = 'Z' ∧ pyIsdigit (pyTake t 6) then
          .ok (rest, station, t)
        else .ok (L, station, "")
    | [] => .ok (L, station, "")

/-- mlogic.py lines 122-154 (getWindInfo): direction, speed, gust and
variable-direction range.  All slices follow Python semantics, including
the end index -1 produced by a failed find of KT. -/
def getWindInfo (L : List String) : List String × String × String × String × List String :=
  let main :=
    match L with
    | [] => (L, "", "", "")
    | t :: rest =>
        if pySliceFrom t ((t.length : Int) - 2) = "KT" ∨
            pySliceFrom t ((t.length : Int) - 3) = "KTS" ∨
            (t.length = 5 ∧ pyIsdigit t) ∨
            (t.length ≥ 8 ∧ pyContains t "G" ∧ ¬ pyContains t "/" ∧ ¬ pyContains t "MPS") then
          let direction := pyTake t 3
          if pyContains t "G" then
            (rest, direction, pySlice t 3 (pyFindI t "G"),
              pySlice t (pyFindI t "G" + 1) (pyFindI t "KT"))
          else (rest, direction, pySlice t 3 (pyFindI t "KT"), "")
        else if pySliceFrom t ((t.length : Int) - 3) = "MPS" then
          let direction := pyTake t 3
          if pyContains t "G" then
            (rest, direction, pySlice t 3 (pyFindI t "G"),
              pySlice t (pyFindI t "G" + 1) (pyFindI t "MPS"))
          else (rest, direction, pySlice t 3 (pyFindI t "MPS"), "")
        else if t.length > 5 ∧ charAt t 3 = '/' ∧ pyIsdigit (pyTake t 3) ∧
            pyIsdigit (pySlice t 3 5) then
          let direction := pyTake t 3
          if pyContains t "G" then
            let gIndex := pyFindI t "G"
            (rest, direction, pySlice t 4 gIndex, pySlice t (gIndex + 1) (gIndex + 3))
          else (rest, direction, pySliceFrom t 4, "")
        else (L, "", "", "")
  let L1 := main.1
  let direction := main.2.1
  let speed := main.2.2.1
  let gust := main.2.2.2
  let sep :=
    match L1 with
    | t :: rest =>
        if 1 < t.length ∧ t.length < 4 ∧ charAt t 0 = 'G' ∧ pyIsdigit (pySliceFrom t 1) then
          (rest, pySliceFrom t 1)
        else (L1, gust)
    | [] => (L1, gust)
  let L2 := sep.1
  let gust1 := sep.2
  match L2 with
  | t :: rest =>
      if t.length = 7 ∧ pyIsdigit (pyTake t 3) ∧ charAt t 3 = 'V' ∧
          pyIsdigit (pySliceFrom t 4) then
        (rest, direction, speed, gust1, pySplitChar 'V' t)
      else (L2, direction, speed, gust1, [])
  | [] => (L2, direction, speed, gust1, [])

/-- mlogic.py lines 157-171 (getVisibilityUS): a token containing SM
(integer-normalized unless it holds a slash), the 9999 sentinel mapped to
10 statute miles, or a two-token fraction.  The int conversions raise
ValueError on non-numeric text and the fraction digits raise IndexError
when the second token is too short, exactly as in the source. -/
def getVisibilityUS : List String → PyM (List String × String)
  | [] => .ok ([], "")
  | t :: rest =>
      if pyContains t "SM" then
        if ¬ pyContains t "/" then
          (pyIntE (pyTake t (pyFindI t "SM"))).bind fun n =>
            .ok (rest, toString n)
        else .ok (rest, pyTake t (pyFindI t "SM"))
      else if t = "9999" then .ok (rest, "10")
      else
        match rest with
        | t2 :: rest2 =>
            if pyContains t2 "SM" ∧ pyIsdigit t then
              let vis2 := pyTake t2 (pyFindI t2 "SM")
              (pyIntE t).bind fun a =>
              (pyCharAt vis2 2).bind fun c2 =>
              (pyIntE ⟨[c2]⟩).bind fun b =>
              (pyCharAt vis2 0).bind fun c0 =>
              (pyIntE ⟨[c0]⟩).bind fun d =>
                .ok (rest2, toString (a * b + d) ++ pySliceFrom vis2 1)
            else .ok (t :: rest, "")
        | [] => .ok (t :: rest, "")

/-- mlogic.py lines 173-177 (getVisibilityInternational): a 4-digit token. -/
def getVisibilityInternational (L : List String) : List String × String :=
  match L with
  | t :: rest => if t.length = 4 ∧ pyIsdigit t then (rest, t) else (L, "")
  | [] => (L, "")

/-! ### mlogic.py : clouds -/

/-- mlogic.py lines 180-186 (sanitizeCloud).  When the character after the
3-letter type is neither a digit nor a slash, the source intends two
repairs: the O branch, whose line is the comparison expression
cloud[3] == 0 rather than an assignment (so it changes nothing), and the
modifier branch, which moves the character to the end of the token. -/
def sanitizeCloud (cloud : String) : String :=
  if cloud.length < 4 then cloud
  else if ¬ (charAt cloud 3).isDigit ∧ charAt cloud 3 ≠ '/' then
    if charAt cloud 3 = 'O' then cloud
    else pyTake cloud 3 ++ pySliceFrom cloud 4 ++ ⟨[charAt cloud 3]⟩
  else cloud

/-- The while loop of splitCloud: successive 3-character chunks, with any
shorter leftover appended at the end. -/
def splitChunks : List Char → List (List Char)
  | a :: b :: c :: rest => [a, b, c] :: splitChunks rest
  | [] => []
  | l => [l]

/-- mlogic.py lines 190-200 (splitCloud): sanitize, then split into type,
height, and optional trailing modifier (2-character type for VV). -/
def splitCloud (cloud0 : String) (beginsWithVV : Bool) : List String :=
  let cloud := sanitizeCloud cloud0
  if beginsWithVV then
    pyTake cloud 2 :: (splitChunks (cloud.data.drop 2)).map (fun l => (⟨l⟩ : String))
  else (splitChunks cloud.data).map (fun l => (⟨l⟩ : String))

/-- One step of the reverse scan of mlogic.py lines 205-209: the accumulator
holds the result for the tokens to the right of `t`; clouds collected so
far were appended right-to-left, so a cloud claimed at `t` goes after them. -/
def getCloudsStep (t : String) (acc : List String × List (List String)) :
    List String × List (List String) :=
  if pyTake t 3 ∈ cloudList then (acc.1, acc.2 ++ [splitCloud t false])
  else if pyTake t 2 = "VV" then (acc.1, acc.2 ++ [splitCloud t true])
  else (t :: acc.1, acc.2)

/-- mlogic.py lines 203-211 (getClouds): scan the tokens from the right,
claim cloud tokens, then reverse the collected clouds back into
left-to-right order. -/
def getClouds (L : List String) : List String × List (List String) :=
  let r := L.foldr getCloudsStep ([], [])
  (r.1, r.2.reverse)

/-! ### mlogic.py : parse pipelines -/

/-- The dictionary built by parseUSVariant / parseInternationalVariant
(mlogic.py line 214): one field per key. -/
structure Report where
  station : String
  time : String
  windDirection : String
  windSpeed : String
  windGust : String
  windVariableDir : List String
  visibility : String
  runwayVisibility : String
  altimeter : String
  temperature : String
  dewpoint : String
  cloudList : List (List String)
  otherList : List String
  remarks : String
deriving Repr, DecidableEq

/-- mlogic.py lines 222-232 (parseUSVariant). -/
def parseUSVariant (txt : String) : PyM Report :=
  let r := getRemarks txt
  let s := sanitize r.1
  (getAltimeterUS s.1).bind fun a =>
  let td := getTempAndDewpoint a.1
  (getStationAndTime td.1).bind fun st =>
  let w := getWindInfo st.1
  (getVisibilityUS w.1).bind fun v =>
  let c := getClouds v.1
  .ok { station := st.2.1, time := st.2.2,
        windDirection := w.2.1, windSpeed := w.2.2.1, windGust := w.2.2.2.1,
        windVariableDir := w.2.2.2.2,
        visibility := v.2, runwayVisibility := s.2, altimeter := a.2,
        temperature := td.2.1, dewpoint := td.2.2,
        cloudList := c.2, otherList := c.1, remarks := r.2 }

/-- mlogic.py lines 234-250 (parseInternationalVariant), including the
CAVOK early exit that fixes visibility at 9999 and empties the cloud list. -/
def parseInternationalVariant (txt : String) : PyM Report :=
  let r := getRemarks txt
  let s := sanitize r.1
  (getAltimeterInternational s.1).bind fun a =>
  let td := getTempAndDewpoint a.1
  (getStationAndTime td.1).bind fun st =>
  let w := getWindInfo st.1
  match w.1 with
  | "CAVOK" :: rest =>
      .ok { station := st.2.1, time := st.2.2,
            windDirection := w.2.1, windSpeed := w.2.2.1, windGust := w.2.2.2.1,
            windVariableDir := w.2.2.2.2,
            visibility := "9999", runwayVisibility := s.2, altimeter := a.2,
            temperature := td.2.1, dewpoint := td.2.2,
            cloudList := [], otherList := rest, remarks := r.2 }
  | wx =>
      let v := getVisibilityInternational wx
      let c := getClouds v.1
      .ok { station := st.2.1, time := st.2.2,
            windDirection := w.2.1, windSpeed := w.2.2.1, windGust := w.2.2.2.1,
            windVariableDir := w.2.2.2.2,
            visibility := v.2, runwayVisibility := s.2, altimeter := a.2,
            temperature := td.2.1, dewpoint := td.2.2,
            cloudList := c.2, otherList := c.1, remarks := r.2 }

/-- Which extraction pipeline a report is routed to. -/
inductive Variant where
  | us
  | intl
deriving Repr, DecidableEq

/-- The dispatch of mlogic.py lines 215-220: too-short input and
unrecognized prefixes select no pipeline (Python returns None); the
single-letter tables are consulted before the two-letter M tables. -/
def selectVariant (txt : String) : Option Variant :=
  if txt.length < 2 then none
  else if charAt txt 0 ∈ RegionsUsingUSParser then some .us
  else if charAt txt 0 ∈ RegionsUsingInternationalParser then some .intl
  else if pyTake txt 2 ∈ MStationsUsingUSParser then some .us
  else if pyTake txt 2 ∈ MStationsUsingInternationalParser then some .intl
  else none

/-- mlogic.py lines 215-220 (parseMETAR): route the report to the pipeline
selected by its station prefix; the `none` result models the Python None
returned for the two hard failures. -/
def parseMETAR (txt : String) : PyM (Option Report) :=
  match selectVariant txt with
  | some .us => (parseUSVariant txt).map some
  | some .intl => (parseInternationalVariant txt).map some
  | none => .ok none

/-! ### mlogic.py : flight rules -/

/-- The visibility preamble of getFlightRules (mlogic.py lines 256-262) for
nonempty visibility: slash tokens are 0 when M-prefixed and a true division
otherwise, 4-digit tokens are meters converted to miles, anything else is
an integer mileage.  Python float arithmetic is modelled exactly by
rationals. -/
def visValue (vis : String) : PyM ℚ :=
  if pyContains vis "/" then
    if charAt vis 0 = 'M' then .ok 0
    else
      let parts := pySplitChar '/' vis
      (pyIntE (parts.getD 0 "")).bind fun a =>
      (pyIntE (parts.getD 1 "")).bind fun b =>
        if b = 0 then .error .zeroDivisionError
        else .ok ((a : ℚ) / (b : ℚ))
  else if vis.length = 4 ∧ pyIsdigit vis then
    (pyIntE vis).bind fun n => .ok ((n : ℚ) * (621371 / 1000000000))
  else
    (pyIntE vis).bind fun n => .ok (n : ℚ)

/-- The ceiling preamble of getFlightRules (mlogic.py lines 264-265): the
height field of the given layer, or 99 when there is none. -/
def ceilingValue (splitCld : Option (List String)) : PyM ℚ :=
  match splitCld with
  | some cld => (pyListGet cld 1).bind fun h => (pyIntE h).bind fun n => .ok (n : ℚ)
  | none => .ok 99

/-- mlogic.py lines 255-273 (getFlightRules): 0 = VFR, 1 = MVFR, 2 = IFR,
3 = LIFR; empty visibility defaults to IFR. -/
def getFlightRules (vis : String) (splitCld : Option (List String)) : PyM Nat :=
  if vis = "" then .ok 2
  else
    (visValue vis).bind fun v =>
    (ceilingValue splitCld).bind fun c =>
      .ok (if v < 5 ∨ c < 30 then
             if v < 3 ∨ c < 10 then
               if v < 1 ∨ c < 5 then 3 else 2
             else 1
           else 0)

/-- mlogic.py lines 278-282 (getCeiling): the first layer that is long
enough, has a digit height, and is of a ceiling type. -/
def getCeiling (clouds : List (List String)) : Option (List String) :=
  clouds.find? fun cloud =>
    decide (cloud.length > 1) && pyIsdigit (cloud.getD 1 "") &&
      decide (cloud.getD 0 "" ∈ (["OVC", "BKN", "VV"] : List String))

/-! ### mlogic.py : weather code translator -/

/-- The for loop of translateWX (mlogic.py lines 295-298): consume
2-character codes, translating those in the table. -/
def translateLoop : Nat → String → String → String
  | 0, _, acc => acc
  | k + 1, wx, acc =>
      let acc :=
        match wxReplacements.lookup (pyTake wx 2) with
        | some r => acc ++ r ++ " "
        | none => acc ++ pyTake wx 2
      translateLoop k (pySliceFrom wx 2) acc

/-- mlogic.py lines 286-299 (translateWX): strip an intensity sign, return
tokens whose remaining length is not 2, 4 or 6 as they then stand, and
otherwise translate the 2-character codes.  Indexing the first character
raises IndexError on an empty token. -/
def translateWX (wx0 : String) : PyM String :=
  (pyCharAt wx0 0).bind fun c =>
    let p := if c = '+' then ("Heavy ", pySliceFrom wx0 1)
             else if c = '-' then ("Light ", pySliceFrom wx0 1)
             else ("", wx0)
    let wx := p.2
    if ¬ (wx.length = 2 ∨ wx.length = 4 ∨ wx.length = 6) then .ok wx
    else .ok (translateLoop (wx.length / 2) wx p.1)

/-- The result of stripping an optional leading intensity sign, as
translateWX computes it. -/
def stripIntensity (wx : String) : String :=
  if charAt wx 0 = '+' ∨ charAt wx 0 = '-' then pySliceFrom wx 1 else wx

/-! ### common.py : station identifier codec -/

/-- common.py lines 14-51: the 36-symbol ident alphabet. -/
def IDENT_CHARS : List Char :=
  ['A', 'B', 'C', 'D', 'E', 'F', 'G', 'H', 'I', 'J', 'K', 'L', 'M',
   'N', 'O', 'P', 'Q', 'R', 'S', 'T', 'U', 'V', 'W', 'X', 'Y', 'Z',
   '0', '1', '2', '3', '4', '5', '6', '7', '8', '9']

/-- common.py lines 61-65 (ident_to_station): look each ident value up in
the alphabet (total here; every value produced by the codec is in range). -/
def ident_to_station (idents : List Nat) : String :=
  ⟨idents.map fun num => IDENT_CHARS.getD num ' '⟩

/-- The loop of station_to_ident on a character list: letters map to their
offset from A, digits to their code point minus 22, anything else is
skipped. -/
def stationToIdentList (l : List Char) : List Nat :=
  l.foldr
    (fun c acc =>
      if c.isAlpha then (c.toNat - 65) :: acc
      else if c.isDigit then (c.toNat - 22) :: acc
      else acc)
    []

/-- common.py lines 68-78 (station_to_ident). -/
def station_to_ident (station : String) : List Nat :=
  stationToIdentList station.data

/-! ### mscreen.py : displayed temperature value -/

/-- mscreen.py lines 213-214 and 218-219: the signed integer denoted by a
temperature or dewpoint field, where a leading M negates the digits. -/
def signedTemp (s : String) : PyM Int :=
  (pyCharAt s 0).bind fun c =>
    if c = 'M' then (pyIntE (pySliceFrom s 1)).bind fun n => .ok (-1 * n)
    else pyIntE s

/-! ### Reference definitions written from the specification text

These definitions follow the words of the specification (and of the claims
derived from it); they are compared with the source-derived definitions
above by the refinement theorems below. -/

/-- From the spec: the ceiling is the height of the first cloud layer of
type BKN, OVC or VV with a numeric height, and 99 if none exists. -/
def ceilingSpec (clouds : List (List String)) : Nat :=
  match clouds.find? (fun c =>
      decide (c.getD 0 "" ∈ (["BKN", "OVC", "VV"] : List String)) &&
        pyIsdigit (c.getD 1 "")) with
  | some c => digitsVal (c.getD 1 "").data
  | none => 99

/-- From the spec: the flight-rules reference decision procedure.  Absent
visibility is IFR regardless of ceiling; otherwise the category is the
first of LIFR (visibility < 1 or ceiling < 5), IFR (visibility < 3 or
ceiling < 10), MVFR (visibility < 5 or ceiling < 30) and VFR whose test
succeeds, with the same numeric reading of the visibility string as the
source (4-digit meter values scaled by 0.000621371 first). -/
def flightRulesSpec (vis : String) (clouds : List (List String)) : PyM Nat :=
  if vis = "" then .ok 2
  else
    (visValue vis).bind fun v =>
      .ok (if v < 1 ∨ (ceilingSpec clouds : ℚ) < 5 then 3
           else if v < 3 ∨ (ceilingSpec clouds : ℚ) < 10 then 2
           else if v < 5 ∨ (ceilingSpec clouds : ℚ) < 30 then 1
           else 0)

/-- The marker table of the remarks splitter: each marker is paired with
the number of extra characters stripped after its position (4 for RMK,
0 for the retained markers). -/
def remarkMarkers : List (String × Nat) :=
  [("BECMG", 0), ("TEMPO", 0), ("TEMP", 0), ("NOSIG", 0), ("RMK", 4)]

/-- Reference remarks splitter: the first marker of the table that occurs
anywhere in the question-mark-cleaned text splits it; the body is the text
up to one character before the marker, stripped and space-split, and the
remarks start at the marker position plus the marker extra. -/
def getRemarksSpec (txt0 : String) : List String × String :=
  let txt := replaceQ txt0
  match remarkMarkers.findSome? (fun m => (pyFind txt m.1).map fun k => (k, m.2)) with
  | some km =>
      (pySplitSpace (pyStrip (pyTake txt ((km.1 : Int) - 1))),
        pySliceFrom txt ((km.1 : Int) + (km.2 : Int)))
  | none => (pySplitSpace (pyStrip txt), "")

/-- A token claimed by the cloud extractor: a recognized 3-letter layer
type, or a VV obscuration. -/
def isCloudToken (t : String) : Bool :=
  decide (pyTake t 3 ∈ cloudList) || decide (pyTake t 2 = "VV")

/-- How the cloud extractor splits a claimed token. -/
def cloudSplit (t : String) : List String :=
  if pyTake t 3 ∈ cloudList then splitCloud t false else splitCloud t true

/-- The heights of the layers whose height field is numeric. -/
def numericHeights (clds : List (List String)) : List Nat :=
  (clds.filter fun c => pyIsdigit (c.getD 1 "")).map fun c => digitsVal (c.getD 1 "").data

/-- From the spec: among layers with numeric heights, every earlier layer
is at most as high as every later one. -/
def cloudHeightsAscending (clds : List (List String)) : Prop :=
  List.Pairwise (· ≤ ·) (numericHeights clds)

instance (clds : List (List String)) : Decidable (cloudHeightsAscending clds) :=
  List.instDecidablePairwise _

/-! ## Theorems -/

/-- Python int conversion of a digit string succeeds with its digit value. -/
theorem pyInt?_of_isdigit (s : String) (h : pyIsdigit s = true) :
    pyInt? s = some (digitsVal s.data : Int) := by
  cases hd : s.data with
  | nil => rw [pyIsdigit, hd] at h; simp at h
  | cons c rest =>
    have hall : (c :: rest).all Char.isDigit = true := by
      rw [pyIsdigit, hd, Bool.and_eq_true] at h
      exact h.2
    have hc : c.isDigit = true := by
      rw [List.all_eq_true] at hall
      exact hall c (List.mem_cons_self c rest)
    have hcm : ¬ (c = '-') := fun e => absurd hc (by subst e; decide)
    have hcp : ¬ (c = '+') := fun e => absurd hc (by subst e; decide)
    simp only [pyInt?, hd]
    rw [if_neg hcm, if_neg hcp, if_pos hall]

/-- Python int conversion of a digit string never raises. -/
theorem pyIntE_of_isdigit (s : String) (h : pyIsdigit s = true) :
    pyIntE s = .ok (digitsVal s.data : Int) := by
  rw [pyIntE, pyInt?_of_isdigit s h]

/-- The ceiling-layer test of getCeiling coincides with the reference test
(first layer of type BKN, OVC or VV with a numeric height). -/
theorem ceilPredAux (c : List String) :
    (decide (c.length > 1) && pyIsdigit (c.getD 1 "") &&
        decide (c.getD 0 "" ∈ (["OVC", "BKN", "VV"] : List String)))
      = (decide (c.getD 0 "" ∈ (["BKN", "OVC", "VV"] : List String)) &&
          pyIsdigit (c.getD 1 "")) := by
  match c with
  | [] => decide
  | [a] =>
      have h1 : ([a] : List String).getD 1 "" = "" := rfl
      simp [h1, pyIsdigit]
  | a :: b :: t =>
      have h0 : (a :: b :: t).getD 0 "" = a := rfl
      have h1 : (a :: b :: t).getD 1 "" = b := rfl
      have hl : decide ((a :: b :: t).length > 1) = true := by
        simp [List.length_cons]
      rw [h0, h1, hl]
      have hmem : (a ∈ (["OVC", "BKN", "VV"] : List String)) ↔
          (a ∈ (["BKN", "OVC", "VV"] : List String)) := by
        simp only [List.mem_cons, List.mem_singleton, List.not_mem_nil, or_false]
        tauto
      rw [show (decide (a ∈ (["OVC", "BKN", "VV"] : List String)))
            = (decide (a ∈ (["BKN", "OVC", "VV"] : List String))) from by
          simp only [decide_eq_decide]; exact hmem]
      cases hb : pyIsdigit b <;>
        cases hm : decide (a ∈ (["BKN", "OVC", "VV"] : List String)) <;> rfl

/-- Evaluating the ceiling selected by getCeiling never raises and yields
the reference ceiling value. -/
theorem ceilingValue_getCeiling (clouds : List (List String)) :
    ceilingValue (getCeiling clouds) = .ok ((ceilingSpec clouds : ℚ)) := by
  have hfind : getCeiling clouds =
      clouds.find? (fun c =>
        decide (c.getD 0 "" ∈ (["BKN", "OVC", "VV"] : List String)) &&
          pyIsdigit (c.getD 1 "")) := by
    unfold getCeiling
    congr 1
    funext c
    exact ceilPredAux c
  rw [hfind]
  unfold ceilingSpec
  cases hf : clouds.find? (fun c =>
      decide (c.getD 0 "" ∈ (["BKN", "OVC", "VV"] : List String)) &&
        pyIsdigit (c.getD 1 "")) with
  | none => simp [ceilingValue]
  | some c =>
      have hp := List.find?_some hf
      rw [Bool.and_eq_true] at hp
      obtain ⟨hmem, hdig⟩ := hp
      have hlen : 1 < c.length := by
        by_contra hle
        push_neg at hle
        have hdef : c.getD 1 "" = "" := List.getD_eq_default _ _ (by omega)
        rw [hdef] at hdig
        exact absurd hdig (by decide)
      have hget : c.get? 1 = some (c.getD 1 "") := by
        cases hg : c.get? 1 with
        | none =>
            rw [List.get?_eq_none] at hg
            omega
        | some x =>
            rw [List.getD_eq_getElem?_getD, ← List.get?_eq_getElem?, hg]
            rfl
      simp only [ceilingValue, pyListGet, hget, Except.bind]
      rw [pyIntE_of_isdigit _ hdig]
      simp only [Except.bind]
      push_cast
      rfl

/-- The nested decision tree of the source equals the flat prioritized
form of the reference procedure. -/
theorem treeFlat (v c : ℚ) :
    (if v < 5 ∨ c < 30 then
       if v < 3 ∨ c < 10 then
         if v < 1 ∨ c < 5 then (3 : Nat) else 2
       else 1
     else 0)
      = (if v < 1 ∨ c < 5 then (3 : Nat)
         else if v < 3 ∨ c < 10 then 2
         else if v < 5 ∨ c < 30 then 1
         else 0) := by
  by_cases h1 : v < 1 ∨ c < 5
  · have h2 : v < 3 ∨ c < 10 := by
      rcases h1 with h | h
      · exact Or.inl (by linarith)
      · exact Or.inr (by linarith)
    have h3 : v < 5 ∨ c < 30 := by
      rcases h1 with h | h
      · exact Or.inl (by linarith)
      · exact Or.inr (by linarith)
    simp only [if_pos h1, if_pos h2, if_pos h3]
  · by_cases h2 : v < 3 ∨ c < 10
    · have h3 : v < 5 ∨ c < 30 := by
        rcases h2 with h | h
        · exact Or.inl (by linarith)
        · exact Or.inr (by linarith)
      simp only [if_pos h3, if_pos h2, if_neg h1]
    · by_cases h3 : v < 5 ∨ c < 30
      · simp only [if_pos h3, if_neg h2, if_neg h1]
      · simp only [if_neg h3, if_neg h2, if_neg h1]

/-- C1: the flight-rules classifier (getFlightRules composed with
getCeiling) equals the reference decision procedure: absent visibility is
IFR regardless of ceiling; otherwise, with the ceiling taken as the height
of the first BKN/OVC/VV layer with a numeric height (99 if none), the
result is LIFR, IFR, MVFR or VFR by the flat strict-threshold tests, with
4-digit meter visibilities scaled by 0.000621371 first. -/
theorem flightRules_matches_reference (vis : String) (clouds : List (List String)) :
    getFlightRules vis (getCeiling clouds) = flightRulesSpec vis clouds := by
  unfold getFlightRules flightRulesSpec
  by_cases hv : vis = ""
  · rw [if_pos hv, if_pos hv]
  · rw [if_neg hv, if_neg hv]
    cases hval : visValue vis with
    | error e => rfl
    | ok v =>
        simp only [Except.bind]
        rw [ceilingValue_getCeiling]
        simp only [Except.bind]
        rw [treeFlat]

/-- C2: the dispatch routes the International two-letter station MG to the
US pipeline, because the single-letter US table (which contains M) is
consulted before the two-letter sub-tables; the sub-table listing MG as
International is present but unreachable. -/
theorem mStation_dispatch_goes_us :
    selectVariant "MGGT 252234Z 09010KT 9999 FEW020" = some Variant.us ∧
      "MG" ∈ MStationsUsingInternationalParser ∧
      selectVariant "MBPV 252234Z" = some Variant.us := by
  refine ⟨by decide, by decide, by decide⟩

/-- C3 counterexample: the nonempty malformed input KT has a station prefix
that selects the US pipeline, yet decoding raises IndexError (the sanitizer
consumes the only token and the station extractor pops an empty list)
instead of returning a structured record. -/
theorem parse_KT_raises :
    selectVariant "KT" = some Variant.us ∧
      parseMETAR "KT" = .error PyErr.indexError := by
  refine ⟨by decide, by decide⟩

/-- C3 amended: the two hard conditions return no record: every input
shorter than 2 characters, and every input of length at least 2 whose
first letter is in neither single-letter region table and whose first two
letters are in neither M sub-table, make parseMETAR return None. -/
theorem parseMETAR_hard_conditions (txt : String)
    (h : txt.length < 2 ∨
      (charAt txt 0 ∉ RegionsUsingUSParser ∧
        charAt txt 0 ∉ RegionsUsingInternationalParser ∧
        pyTake txt 2 ∉ MStationsUsingUSParser ∧
        pyTake txt 2 ∉ MStationsUsingInternationalParser)) :
    parseMETAR txt = .ok none := by
  unfold parseMETAR selectVariant
  rcases h with h | ⟨h1, h2, h3, h4⟩
  · rw [if_pos h]
  · by_cases hl : txt.length < 2
    · rw [if_pos hl]
    · rw [if_neg hl, if_neg h1, if_neg h2, if_neg h3, if_neg h4]

/-- C3 amended, witness: a Q-prefixed identifier matches no region table
and decoding returns no record. -/
theorem parseMETAR_hard_conditions_witness :
    parseMETAR "QQQQ 252234Z" = .ok none :=
  parseMETAR_hard_conditions "QQQQ 252234Z"
    (Or.inr ⟨by decide, by decide, by decide, by decide⟩)

/-- C4: the reference report decodes to exactly the claimed record, the
M-prefixed dewpoint denotes -3 and the temperature 1 (per the value
conversion in mscreen.py), the cloud layer OVC has numeric height 10, and
the flight rules computed from the record are MVFR (category 1). -/
theorem ktob_decode :
    parseMETAR "KTOB 252234Z AUTO 29019G29KT 10SM OVC010 01/M03 A3002 RMK AO2" =
      .ok (some
        { station := "KTOB", time := "252234Z",
          windDirection := "290", windSpeed := "19", windGust := "29",
          windVariableDir := [],
          visibility := "10", runwayVisibility := "", altimeter := "3002",
          temperature := "01", dewpoint := "M03",
          cloudList := [["OVC", "010"]], otherList := [], remarks := "AO2" }) ∧
      signedTemp "01" = .ok 1 ∧
      signedTemp "M03" = .ok (-3) ∧
      pyInt? "290" = some 290 ∧ pyInt? "19" = some 19 ∧ pyInt? "29" = some 29 ∧
      pyInt? "10" = some 10 ∧ pyInt? "3002" = some 3002 ∧
      digitsVal "010".data = 10 ∧
      getFlightRules "10" (getCeiling [["OVC", "010"]]) = .ok 1 := by
  refine ⟨by decide, by decide, by decide, by decide, by decide, by decide,
    by decide, by decide, by decide, by decide⟩

/-- C7: the cloud repair function does not repair the letter O (the source
line is a comparison, not an assignment, so FEWO03 stays FEWO03), while a
genuine modifier character is moved to the end of the token. -/
theorem sanitizeCloud_O_not_repaired :
    sanitizeCloud "FEWO03" = "FEWO03" ∧
      sanitizeCloud "FEWO03" ≠ "FEW003" ∧
      sanitizeCloud "BKNC015" = "BKN015C" := by
  refine ⟨by decide, by decide, by decide⟩

/-- C10: a head token 9999 (which never carries an SM suffix) is consumed
by the US visibility extractor, which reports 10 statute miles and leaves
the remaining tokens unchanged. -/
theorem visibilityUS_9999_gives_10 (rest : List String) :
    getVisibilityUS ("9999" :: rest) = .ok (rest, "10") := by
  have h1 : ¬ (pyContains "9999" "SM" = true) := by decide
  simp only [getVisibilityUS]
  rw [if_neg h1]
  simp

/-- C5 counterexample: a report containing NOSIG but none of the markers
BECMG, TEMPO, RMK is still split, with NOSIG becoming the remarks, so the
three-marker description of the splitter is refuted. -/
theorem remarks_nosig_counterexample :
    pyContains "EGLL 010200Z NOSIG" "BECMG" = false ∧
      pyContains "EGLL 010200Z NOSIG" "TEMPO" = false ∧
      pyContains "EGLL 010200Z NOSIG" "RMK" = false ∧
      getRemarks "EGLL 010200Z NOSIG" = (["EGLL", "010200Z"], "NOSIG") ∧
      ("NOSIG" : String) ≠ "" := by
  refine ⟨by decide, by decide, by decide, by decide, by decide⟩

/-- C5 amended: the remarks splitter is exactly the first-match scan of the
five-marker precedence table BECMG, TEMPO, TEMP, NOSIG, RMK, with the RMK
marker stripped (position plus 4) and the others retained, the body being
the question-mark-cleaned text up to one character before the marker,
stripped and space-split, and the whole cleaned text with empty remarks
when no marker occurs. -/
theorem getRemarks_matches_marker_table (txt0 : String) :
    getRemarks txt0 = getRemarksSpec txt0 := by
  unfold getRemarks getRemarksSpec
  cases h1 : pyFind (replaceQ txt0) "BECMG" with
  | some k => simp [remarkMarkers, List.findSome?, h1]
  | none =>
    cases h2 : pyFind (replaceQ txt0) "TEMPO" with
    | some k => simp [remarkMarkers, List.findSome?, h1, h2]
    | none =>
      cases h3 : pyFind (replaceQ txt0) "TEMP" with
      | some k => simp [remarkMarkers, List.findSome?, h1, h2, h3]
      | none =>
        cases h4 : pyFind (replaceQ txt0) "NOSIG" with
        | some k => simp [remarkMarkers, List.findSome?, h1, h2, h3, h4]
        | none =>
          cases h5 : pyFind (replaceQ txt0) "RMK" with
          | some k => simp [remarkMarkers, List.findSome?, h1, h2, h3, h4, h5]
          | none => simp [remarkMarkers, List.findSome?, h1, h2, h3, h4, h5]

/-- C6 counterexample: a decoded report that lists its layers high-to-low
keeps that order, so the cloud list is not ascending by height. -/
theorem clouds_descending_counterexample :
    (parseMETAR "KJFK OVC030 BKN010").map (Option.map Report.cloudList) =
      .ok (some [["OVC", "030"], ["BKN", "010"]]) ∧
      ¬ cloudHeightsAscending [["OVC", "030"], ["BKN", "010"]] := by
  refine ⟨by decide, by decide⟩

/-- C6 amended: the cloud extractor preserves the original token order: the
cloud list equals the cloud-shaped tokens of its input, left to right, each
split into components; it is therefore ascending by height exactly when the
report lists its numeric layers in ascending order. -/
theorem clouds_preserve_token_order (L : List String) :
    (getClouds L).2 = (L.filter isCloudToken).map cloudSplit := by
  have key : ∀ M : List String,
      (M.foldr getCloudsStep ([], [])).2 = ((M.filter isCloudToken).map cloudSplit).reverse := by
    intro M
    induction M with
    | nil => rfl
    | cons t rest ih =>
        rw [List.foldr_cons]
        by_cases h3 : pyTake t 3 ∈ cloudList
        · have hstep : getCloudsStep t (rest.foldr getCloudsStep ([], [])) =
              ((rest.foldr getCloudsStep ([], [])).1,
                (rest.foldr getCloudsStep ([], [])).2 ++ [splitCloud t false]) := by
            unfold getCloudsStep
            rw [if_pos h3]
          have hct : isCloudToken t = true := by
            unfold isCloudToken
            rw [decide_eq_true h3]
            rfl
          have hcs : cloudSplit t = splitCloud t false := if_pos h3
          rw [hstep]
          simp only [List.filter_cons, hct, if_true, List.map_cons, List.reverse_cons, ih, hcs]
        · by_cases h2 : pyTake t 2 = "VV"
          · have hstep : getCloudsStep t (rest.foldr getCloudsStep ([], [])) =
                ((rest.foldr getCloudsStep ([], [])).1,
                  (rest.foldr getCloudsStep ([], [])).2 ++ [splitCloud t true]) := by
              unfold getCloudsStep
              rw [if_neg h3, if_pos h2]
            have hct : isCloudToken t = true := by
              unfold isCloudToken
              rw [decide_eq_true h2]
              simp
            have hcs : cloudSplit t = splitCloud t true := if_neg h3
            rw [hstep]
            simp only [List.filter_cons, hct, if_true, List.map_cons, List.reverse_cons, ih, hcs]
          · have hstep : getCloudsStep t (rest.foldr getCloudsStep ([], [])) =
                (t :: (rest.foldr getCloudsStep ([], [])).1,
                  (rest.foldr getCloudsStep ([], [])).2) := by
              unfold getCloudsStep
              rw [if_neg h3, if_neg h2]
            have hct : isCloudToken t = false := by
              unfold isCloudToken
              rw [decide_eq_false h3, decide_eq_false h2]
              rfl
            rw [hstep]
            simp [List.filter_cons, hct, ih]
  simp only [getClouds]
  rw [key L, List.reverse_reverse]

/-- C8 counterexample: a prefixed token whose stripped length is not 2, 4
or 6 is returned with the intensity prefix removed, not unmodified. -/
theorem translateWX_plus_counterexample :
    translateWX "+ABC" = .ok "ABC" ∧ ("ABC" : String) ≠ "+ABC" := by
  refine ⟨by decide, by decide⟩

/-- C8 amended: for every nonempty token whose length after removal of an
optional leading intensity sign is not 2, 4 or 6, the translator returns
the prefix-stripped token (the sign, when present, is not restored). -/
theorem translateWX_nonstandard_returns_stripped (wx : String) (hne : wx ≠ "")
    (hlen : ¬ ((stripIntensity wx).length = 2 ∨ (stripIntensity wx).length = 4 ∨
      (stripIntensity wx).length = 6)) :
    translateWX wx = .ok (stripIntensity wx) := by
  obtain ⟨l⟩ := wx
  cases l with
  | nil => exact absurd (by decide) hne
  | cons c rest =>
      have hc : pyCharAt ⟨c :: rest⟩ 0 = .ok c := rfl
      have hchar : charAt ⟨c :: rest⟩ 0 = c := rfl
      by_cases hp : c = '+'
      · have hs : stripIntensity ⟨c :: rest⟩ = pySliceFrom ⟨c :: rest⟩ 1 := by
          unfold stripIntensity
          rw [if_pos (Or.inl (by rw [hchar, hp]))]
        rw [hs] at hlen
        simp only [translateWX, hc, Except.bind, if_pos hp]
        rw [hs, if_pos hlen]
      · by_cases hm : c = '-'
        · have hs : stripIntensity ⟨c :: rest⟩ = pySliceFrom ⟨c :: rest⟩ 1 := by
            unfold stripIntensity
            rw [if_pos (Or.inr (by rw [hchar, hm]))]
          rw [hs] at hlen
          simp only [translateWX, hc, Except.bind, if_neg hp, if_pos hm]
          rw [hs, if_pos hlen]
        · have hs : stripIntensity ⟨c :: rest⟩ = ⟨c :: rest⟩ := by
            unfold stripIntensity
            rw [if_neg]
            rw [hchar]
            rintro (h | h)
            · exact hp h
            · exact hm h
          rw [hs] at hlen
          simp only [translateWX, hc, Except.bind, if_neg hp, if_neg hm]
          rw [hs, if_pos hlen]

/-- C8 amended, witness: a runway-condition group is returned as it stands
(it has no intensity sign, so stripping changes nothing). -/
theorem translateWX_nonstandard_witness :
    translateWX "R03/03002V03" = .ok "R03/03002V03" :=
  translateWX_nonstandard_returns_stripped "R03/03002V03" (by decide) (by decide)

/-- Every character of the codec alphabet is a letter or a digit, and its
ident value looks it back up. -/
theorem identCharsRound : ∀ c ∈ IDENT_CHARS,
    (c.isAlpha || c.isDigit) = true ∧
      IDENT_CHARS.getD (if c.isAlpha then c.toNat - 65 else c.toNat - 22) ' ' = c := by
  decide

/-- The codec round-trip on character lists drawn from the alphabet. -/
theorem roundtripList (l : List Char) (h : ∀ c ∈ l, c ∈ IDENT_CHARS) :
    (stationToIdentList l).map (fun num => IDENT_CHARS.getD num ' ') = l := by
  induction l with
  | nil => rfl
  | cons c rest ih =>
      have hc := identCharsRound c (h c (List.mem_cons_self c rest))
      have hrest : ∀ x ∈ rest, x ∈ IDENT_CHARS := fun x hx => h x (List.mem_cons_of_mem c hx)
      have hstep : stationToIdentList (c :: rest) =
          (if c.isAlpha then c.toNat - 65 else c.toNat - 22) :: stationToIdentList rest := by
        unfold stationToIdentList
        rw [List.foldr_cons]
        by_cases ha : c.isAlpha
        · rw [if_pos ha, if_pos ha]
        · have hd : c.isDigit = true := by
            have hor := hc.1
            rw [Bool.or_eq_true] at hor
            rcases hor with hx | hx
            · exact absurd hx ha
            · exact hx
          rw [if_neg ha, if_pos hd, if_neg ha]
      rw [hstep, List.map_cons, hc.2, ih hrest]

/-- C9: the station-identifier codec round-trips on every 4-character
string drawn from the 36-symbol alphabet. -/
theorem ident_codec_roundtrip (s : String) (hlen : s.length = 4)
    (h : ∀ c ∈ s.data, c ∈ IDENT_CHARS) :
    ident_to_station (station_to_ident s) = s := by
  obtain ⟨l⟩ := s
  unfold ident_to_station station_to_ident
  congr 1
  exact roundtripList l h

/-- C9 witness: the round-trip at KJFK. -/
theorem ident_codec_roundtrip_witness :
    ident_to_station (station_to_ident "KJFK") = "KJFK" :=
  ident_codec_roundtrip "KJFK" (by decide) (by decide)

/-- C1 witness: the classifier agrees with the reference procedure on a
concrete visibility and cloud list. -/
theorem flightRules_matches_reference_witness :
    getFlightRules "10" (getCeiling [["OVC", "010"]]) = flightRulesSpec "10" [["OVC", "010"]] :=
  flightRules_matches_reference "10" [["OVC", "010"]]

/-- C5 amended, witness: the splitter agrees with the marker table on a
concrete TEMPO report. -/
theorem getRemarks_matches_marker_table_witness :
    getRemarks "EGLL 010200Z TEMPO 2212" = getRemarksSpec "EGLL 010200Z TEMPO 2212" :=
  getRemarks_matches_marker_table "EGLL 010200Z TEMPO 2212"

/-- C6 amended, witness: order preservation on a concrete token list. -/
theorem clouds_preserve_token_order_witness :
    (getClouds ["FEW010", "XX", "VV002"]).2 =
      ((["FEW010", "XX", "VV002"] : List String).filter isCloudToken).map cloudSplit :=
  clouds_preserve_token_order ["FEW010", "XX", "VV002"]

/-- C10 witness: the 9999 sentinel at the head of a concrete token list. -/
theorem visibilityUS_9999_gives_10_witness :
    getVisibilityUS ["9999", "BKN010"] = .ok (["BKN010"], "10") :=
  visibilityUS_9999_gives_10 ["BKN010"]

end Metar

